import Mathlib

/-
Shallow embedding of src/connection.py (class Socket) of nielsrolf/realtime-py,
together with the parts of the data model that connection.py imports from
messages.py, channel.py and exceptions.py (those modules are not under src/ and
are modelled from the spec where noted).
-/

namespace RealtimePy

/-- Opaque payload carried by one wire frame (spec section 3: opaque structured
data; nothing in connection.py inspects it). -/
abbrev Payload := String

/-- Optional connection parameters (the `params: dict` argument of
`Socket.__init__`); opaque to connection.py. -/
abbrev Params := List (String × String)

/-- Modelled from the spec: the reserved control topic `PHOENIX_CHANNEL` from
messages.py (not under src/), used only to address heartbeat frames. -/
def PHOENIX_CHANNEL : String := "phoenix"

/-- Modelled from the spec: the fixed heartbeat payload `HEARTBEAT_PAYLOAD` from
messages.py (not under src/). -/
def HEARTBEAT_PAYLOAD : Payload := "heartbeat_payload"

namespace ChannelEvents

/-- Modelled from the spec: the reserved reply event name (`ChannelEvents.reply`
in messages.py, not under src/), the sentinel the dispatcher drops. -/
def reply : String := "phx_reply"

/-- Modelled from the spec: the heartbeat event name (`ChannelEvents.heartbeat`
in messages.py, not under src/). -/
def heartbeat : String := "heartbeat"

end ChannelEvents

/-- Modelled from the spec: one wire frame decoded into a `Message`
(messages.py is not under src/; the field shape is spec sections 3 and 6). -/
structure Message where
  topic : String
  event : String
  payload : Payload
  ref : Option String
deriving DecidableEq

/-- Modelled from the spec: one listener registered on a Channel (channel.py is
not under src/): an event name plus the identity of its callback. A callback is
represented by a numeric identity so that invocation sequences can be compared. -/
structure Listener where
  event : String
  callbackId : Nat
deriving DecidableEq

/-- Modelled from the spec: a `Channel` (channel.py is not under src/): its
topic, the connection params it was built with, and the ordered listener list.
The weak back-reference to the owning Socket is a non-owning association
(spec section 9) and carries no data, so it is not represented. -/
structure Channel where
  topic : String
  params : Params
  listeners : List Listener
deriving DecidableEq

/-- Modelled from the spec: `Channel.register(event, callback)` appends a
Listener, with no uniqueness constraint on the event name (spec section 4.2). -/
def Channel.register (c : Channel) (event : String) (callbackId : Nat) : Channel :=
  { c with listeners := c.listeners ++ [⟨event, callbackId⟩] }

/-- A transport handle (a `websockets` connection object): the only attribute
connection.py reads from it is its open/closed state. -/
structure Transport where
  open_ : Bool
deriving DecidableEq

/-- The topic-to-channel-list mapping `self.channels` (a `defaultdict(list)` in
`Socket.__init__`), as an insertion-ordered association list. -/
abbrev ChannelDict := List (String × List Channel)

/-- Python `dict.get(k)` on the channel mapping: the binding of `k` if present;
never inserts. -/
def dict_get (d : ChannelDict) (k : String) : Option (List Channel) :=
  (d.find? (fun p => p.1 == k)).map (fun p => p.2)

/-- Python `self.channels.get(msg.topic, [])` as used in `Socket._listen`:
the bound list, or the empty list when the key is absent; never inserts. -/
def dict_getD (d : ChannelDict) (k : String) : List Channel :=
  (dict_get d k).getD []

/-- Python `self.channels[topic].append(chan)` on the `defaultdict(list)`, as in
the body of `Socket.set_channel`: appends to the existing list, inserting the
key with a fresh list when it is absent. -/
def dd_append (d : ChannelDict) (k : String) (c : Channel) : ChannelDict :=
  match dict_get d k with
  | some _ => d.map (fun p => if p.1 == k then (p.1, p.2 ++ [c]) else p)
  | none => d ++ [(k, [c])]

/-- The mutable state of a `Socket` as set up by `Socket.__init__`. -/
structure Socket where
  url : String
  channels : ChannelDict
  connected : Bool
  params : Params
  hb_interval : Nat
  ws_connection : Option Transport
  kept_alive : Bool
deriving DecidableEq

/-- `Socket.__init__(url, params, hb_interval)`: empty channel mapping, not
connected, no transport handle. -/
def Socket.init (url : String) (params : Params) (hb_interval : Nat) : Socket :=
  { url := url, channels := [], connected := false, params := params,
    hb_interval := hb_interval, ws_connection := none, kept_alive := false }

/-- Errors raised by the code in connection.py. The exception classes live in
exceptions.py (not under src/) and the Python builtins; only their identity
matters here: `NotConnectedError(func.__name__)` from the guard,
`TypeError` from calling a function with too few positional arguments,
the undecodable-frame error from `json.loads` or `Message(**...)`, and the
connection-establishment failures of `connect` (spec section 7 groups the last
ones under the name ConnectionError). -/
inductive PyErr
  | notConnectedError (name : String)
  | typeErrorMissingArgs (name : String)
  | malformedFrameError
  | connectionError (msg : String)
deriving DecidableEq

/-- A Python function object as the `ensure_connection` decorator sees it: its
`__name__` and the number of required positional parameters. -/
structure PyFunc where
  name : String
  arity : Nat
deriving DecidableEq

/-- The raw `Socket.listen` function: one required positional parameter, `self`. -/
def listen_fn : PyFunc := { name := "listen", arity := 1 }

/-- The raw `Socket.set_channel` function: two required positional parameters,
`self` and `topic`. -/
def set_channel_fn : PyFunc := { name := "set_channel", arity := 2 }

/-- The `wrapper(*args)` produced by `Socket.ensure_connection`: when
`args[0].connected` is false it raises `NotConnectedError(func.__name__)` before
anything else runs; otherwise it evaluates `func()` with zero arguments, which
raises `TypeError` whenever `func` requires positional parameters (both guarded
methods do, so their bodies never execute), and the wrapper then returns `None`,
discarding any value `func()` would have produced. In every branch the socket
state is returned unchanged: the wrapper writes nothing, and for positive arity
the wrapped body is never entered. -/
def guarded_call (f : PyFunc) (s : Socket) : Socket × Except PyErr Unit :=
  if s.connected then
    (s, if f.arity == 0 then Except.ok () else Except.error (PyErr.typeErrorMissingArgs f.name))
  else
    (s, Except.error (PyErr.notConnectedError f.name))

/-- The decorated `Socket.set_channel(topic)` as callable from outside: the
guard wrapper applied to the raw function, with the topic argument sitting
unused in `args`. -/
def set_channel_call (s : Socket) (_topic : String) : Socket × Except PyErr Unit :=
  guarded_call set_channel_fn s

/-- One invoked callback: which callback fired, with which payload argument. -/
structure Invocation where
  callbackId : Nat
  payload : Payload
deriving DecidableEq

/-- One iteration of the body of `Socket._listen` for a decoded `Message`: if
its event equals the reply sentinel, drop it; otherwise read
`self.channels.get(msg.topic, [])` and, for each channel in order, for each of
its listeners in order, invoke the callback with `msg.payload` when the
listener event equals the message event. Returns the mapping (unchanged: the
lookup uses `.get`, which never inserts) with the invocation sequence. -/
def dispatch_one (channels : ChannelDict) (msg : Message) : ChannelDict × List Invocation :=
  if msg.event == ChannelEvents.reply then (channels, [])
  else
    (channels,
      (dict_getD channels msg.topic).flatMap (fun channel =>
        channel.listeners.filterMap (fun cl =>
          if cl.event == msg.event then some ⟨cl.callbackId, msg.payload⟩ else none)))

/-- Outcome of receiving one frame and decoding it (`json.loads` followed by
`Message(**...)` in `Socket._listen`): a frame either decodes to a `Message` or
the decode raises (invalid JSON, or missing or mistyped required fields). -/
inductive RawFrame
  | valid (m : Message)
  | malformed
deriving DecidableEq

/-- How the `Socket._listen` loop ended. -/
inductive ListenEnd
  | closed
  | malformedAbort
deriving DecidableEq

/-- `Socket._listen` over the inbound frame stream, the list of frames the
transport delivers before it closes. The `try` catches only `ConnectionClosed`
(recv after the stream is exhausted), on which the loop breaks cleanly; a
decode failure is not caught, so it aborts the whole loop with no further
receive or dispatch. Returns the invocations performed, in arrival order, and
how the loop ended. -/
def listen_run (channels : ChannelDict) : List RawFrame → List Invocation × ListenEnd
  | [] => ([], ListenEnd.closed)
  | RawFrame.malformed :: _ => ([], ListenEnd.malformedAbort)
  | RawFrame.valid m :: rest =>
      let r := listen_run channels rest
      ((dispatch_one channels m).2 ++ r.1, r.2)

/-- The frame built on every iteration of `Socket._keep_alive`:
`dict(topic=PHOENIX_CHANNEL, event=ChannelEvents.heartbeat,
payload=HEARTBEAT_PAYLOAD, ref=None)`. -/
def heartbeatFrame : Message :=
  { topic := PHOENIX_CHANNEL, event := ChannelEvents.heartbeat,
    payload := HEARTBEAT_PAYLOAD, ref := none }

/-- `Socket._keep_alive`, with time modelled as the sum of the sleeps performed:
`openSends` is how many sends the transport accepts before it closes (the next
send raises `ConnectionClosed` and the loop breaks); `t` is the current time.
Each iteration sends the heartbeat frame and then sleeps `hb` time units, so
the result is the timed trace of frames actually sent. -/
def keep_alive_run (hb : Nat) : (openSends : Nat) → (t : Nat) → List (Nat × Message)
  | 0, _ => []
  | Nat.succ k, t => (t, heartbeatFrame) :: keep_alive_run hb k (t + hb)

/-- `Socket._connect`: `websockets.connect(self.url)` either raises
(`attempt = none`, the transport cannot be established, spec name
ConnectionError) or yields a handle. An open handle is recorded in
`self.ws_connection` and `self.connected` is set; a handle that does not report
open makes the coroutine raise `Exception("Connection Failed")` with the socket
untouched. -/
def Socket._connect (s : Socket) (attempt : Option Transport) : Socket × Except PyErr Unit :=
  match attempt with
  | none => (s, Except.error (PyErr.connectionError "transport"))
  | some ws =>
      if ws.open_ then
        ({ s with ws_connection := some ws, connected := true }, Except.ok ())
      else
        (s, Except.error (PyErr.connectionError "Connection Failed"))

/-- `Socket.connect`: runs `_connect` to completion; on success it additionally
executes the `self.connected = True` on line 73. A failure inside `_connect`
propagates out of `run_until_complete` before that assignment runs. -/
def Socket.connect (s : Socket) (attempt : Option Transport) : Socket × Except PyErr Unit :=
  match Socket._connect s attempt with
  | (s2, Except.ok _) => ({ s2 with connected := true }, Except.ok ())
  | (s2, Except.error e) => (s2, Except.error e)

/-- The events a `Socket` can experience through its operations: the three
outcomes of `connect()` (open handle, establishment raises, handle not open), a
call to a guarded method (`set_channel` or `listen`), and the transport closing
underneath `_listen` and `_keep_alive` — on `ConnectionClosed` both loops only
print and break, writing no field of the socket back. -/
inductive Event
  | connectOk
  | connectRaise
  | connectNotOpen
  | setChannelCall (topic : String)
  | listenCall
  | transportClose

/-- The effect of one event on the socket state. -/
def step (s : Socket) : Event → Socket
  | Event.connectOk => (Socket.connect s (some { open_ := true })).1
  | Event.connectRaise => (Socket.connect s none).1
  | Event.connectNotOpen => (Socket.connect s (some { open_ := false })).1
  | Event.setChannelCall t => (set_channel_call s t).1
  | Event.listenCall => (guarded_call listen_fn s).1
  | Event.transportClose =>
      { s with ws_connection := s.ws_connection.map (fun _ => { open_ := false }) }

/-- The state reached from a start state through a sequence of events. -/
def run_events (s : Socket) (es : List Event) : Socket :=
  es.foldl step s

/-- A live transport handle is held: `ws_connection` is a handle that reports
open. -/
def holds_live_transport (s : Socket) : Bool :=
  match s.ws_connection with
  | some ws => ws.open_
  | none => false

/-- The connected socket obtained by a successful `connect()` on a fresh
`Socket`, used as the concrete starting point for evaluations. -/
def s_after_connect : Socket :=
  run_events (Socket.init "ws://server.example" [] 5) [Event.connectOk]

/-
Theorems settling the claims.
-/

/-- C3: on a connected Socket, a guarded public operation (`listen()` or
`set_channel(topic)`) goes through the `ensure_connection` wrapper, which
invokes the wrapped function with no arguments and discards its return value;
the call therefore raises `TypeError` and the caller never receives the
operation result, while the socket state is untouched. -/
theorem C3_guard_raises_TypeError (s : Socket) (t : String) (h : s.connected = true) :
    guarded_call listen_fn s = (s, Except.error (PyErr.typeErrorMissingArgs "listen")) ∧
    set_channel_call s t = (s, Except.error (PyErr.typeErrorMissingArgs "set_channel")) := by
  constructor <;> simp [guarded_call, set_channel_call, listen_fn, set_channel_fn, h]

/-- Witness for C3 at a concrete connected socket. -/
theorem C3_guard_raises_TypeError_witness :
    ({ Socket.init "ws://u" [] 5 with
        connected := true, ws_connection := some { open_ := true } } : Socket).connected = true ∧
    (guarded_call listen_fn
        { Socket.init "ws://u" [] 5 with
          connected := true, ws_connection := some { open_ := true } } =
      ({ Socket.init "ws://u" [] 5 with
         connected := true, ws_connection := some { open_ := true } },
       Except.error (PyErr.typeErrorMissingArgs "listen")) ∧
     set_channel_call
        { Socket.init "ws://u" [] 5 with
          connected := true, ws_connection := some { open_ := true } } "room:1" =
      ({ Socket.init "ws://u" [] 5 with
         connected := true, ws_connection := some { open_ := true } },
       Except.error (PyErr.typeErrorMissingArgs "set_channel"))) :=
  ⟨rfl, C3_guard_raises_TypeError _ "room:1" rfl⟩

/-- C4: on a Socket that is not connected, `register_channel(topic)` (the
decorated `set_channel`) raises `NotConnectedError` from the guard before the
body runs, so the topic-to-channel mapping — indeed the whole socket state — is
unchanged and no Channel is created. -/
theorem C4_not_connected_raises (s : Socket) (t : String) (h : s.connected = false) :
    set_channel_call s t = (s, Except.error (PyErr.notConnectedError "set_channel")) := by
  simp [set_channel_call, guarded_call, set_channel_fn, h]

/-- Witness for C4 at a freshly initialised socket. -/
theorem C4_not_connected_raises_witness :
    (Socket.init "ws://u" [] 5).connected = false ∧
    set_channel_call (Socket.init "ws://u" [] 5) "room:1" =
      (Socket.init "ws://u" [] 5, Except.error (PyErr.notConnectedError "set_channel")) :=
  ⟨rfl, C4_not_connected_raises _ "room:1" rfl⟩

/-- C5: a Message whose event equals the reply sentinel is discarded silently:
whatever Channels and Listeners are registered, dispatch performs no callback
invocation and leaves the mapping unchanged. -/
theorem C5_reply_discarded (channels : ChannelDict) (topic : String)
    (payload : Payload) (ref : Option String) :
    dispatch_one channels
      { topic := topic, event := ChannelEvents.reply, payload := payload, ref := ref } =
      (channels, []) := by
  simp [dispatch_one]

/-- C10: a Message whose topic has no registered Channel dispatches as a no-op:
no invocation happens, no error is raised (dispatch returns normally), and the
mapping is returned unchanged — in particular no empty entry is created for the
unknown topic, since the lookup is `.get`. -/
theorem C10_unknown_topic_noop (channels : ChannelDict) (msg : Message)
    (h : dict_get channels msg.topic = none) :
    dispatch_one channels msg = (channels, []) := by
  unfold dispatch_one
  split
  · rfl
  · simp [dict_getD, h]

/-- A sample channel on topic `room:1` with one listener, for concrete
evaluations. -/
def sampleChannel : Channel :=
  { topic := "room:1", params := [], listeners := [{ event := "new_msg", callbackId := 0 }] }

/-- A sample mapping holding only topic `room:1`, for concrete evaluations. -/
def sampleDict : ChannelDict := [("room:1", [sampleChannel])]

/-- Witness for C10: the sample mapping holds only topic `room:1`, and a
message for the unregistered topic `room:2` dispatches as a no-op. -/
theorem C10_unknown_topic_noop_witness :
    dict_get sampleDict "room:2" = none ∧
    dispatch_one sampleDict
      { topic := "room:2", event := "new_msg", payload := "hi", ref := some "1" } =
      (sampleDict, []) :=
  ⟨rfl, C10_unknown_topic_noop _ _ rfl⟩

/-- C2 (evaluation of the code at the failing input): on a connected Socket —
reached by a successful `connect()` — `set_channel("room:1")` does not create,
append or return a Channel: the `ensure_connection` wrapper calls the wrapped
function with no arguments, so the call raises `TypeError` and the socket,
including its topic-to-channel mapping, is unchanged. -/
theorem C2_eval_set_channel_raises :
    s_after_connect.connected = true ∧
    set_channel_call s_after_connect "room:1" =
      (s_after_connect, Except.error (PyErr.typeErrorMissingArgs "set_channel")) :=
  ⟨rfl, rfl⟩

/-- C1 (evaluation of the code at the failing input): on a connected Socket,
two `set_channel("room:1")` calls both raise `TypeError` from the guard
wrapper, so afterwards no Channel is discoverable under `room:1` (the mapping
is still empty) and dispatch of a matching inbound Message serves no Channel at
all — not the two the claim requires. -/
theorem C1_eval_no_channel_registered :
    s_after_connect.connected = true ∧
    (set_channel_call s_after_connect "room:1").2 =
      Except.error (PyErr.typeErrorMissingArgs "set_channel") ∧
    (set_channel_call (set_channel_call s_after_connect "room:1").1 "room:1").2 =
      Except.error (PyErr.typeErrorMissingArgs "set_channel") ∧
    (set_channel_call (set_channel_call s_after_connect "room:1").1 "room:1").1.channels = [] ∧
    (dispatch_one
      (set_channel_call (set_channel_call s_after_connect "room:1").1 "room:1").1.channels
      { topic := "room:1", event := "new_msg", payload := "hi", ref := some "1" }).2 = [] :=
  ⟨rfl, rfl, rfl, rfl, rfl⟩

/-- Index formula for the heartbeat trace, for an arbitrary start time. -/
theorem keep_alive_run_getElem (hb n : Nat) :
    ∀ t i, (keep_alive_run hb n t)[i]? =
      if i < n then some (t + i * hb, heartbeatFrame) else none := by
  induction n with
  | zero => intro t i; simp [keep_alive_run]
  | succ k ih =>
      intro t i
      cases i with
      | zero => simp [keep_alive_run]
      | succ j =>
          rw [keep_alive_run, List.getElem?_cons_succ, ih (t + hb) j]
          by_cases hj : j < k
          · simp only [hj, if_true, Nat.succ_lt_succ hj, if_true]
            have : t + hb + j * hb = t + (j + 1) * hb := by ring
            rw [this]
          · have hj2 : ¬ j + 1 < k + 1 := fun h => hj (Nat.lt_of_succ_lt_succ h)
            simp [hj, hj2]

/-- Length of the heartbeat trace equals the number of accepted sends. -/
theorem keep_alive_run_length (hb n : Nat) :
    ∀ t, (keep_alive_run hb n t).length = n := by
  induction n with
  | zero => intro t; rfl
  | succ k ih => intro t; simp [keep_alive_run, ih]

/-- C6: while the transport accepts sends, `_keep_alive` emits one frame every
`hb_interval` time units — the frame sent at index `i` goes out at time
`i * hb_interval` and is exactly the fixed heartbeat frame (control topic,
heartbeat event, fixed payload, `ref = None`); once the transport closes the
loop breaks, so the trace holds exactly `openSends` frames and nothing after
the closure. -/
theorem C6_heartbeat_trace (hb openSends i : Nat) :
    heartbeatFrame =
      { topic := PHOENIX_CHANNEL, event := ChannelEvents.heartbeat,
        payload := HEARTBEAT_PAYLOAD, ref := none } ∧
    (keep_alive_run hb openSends 0).length = openSends ∧
    (keep_alive_run hb openSends 0)[i]? =
      if i < openSends then some (i * hb, heartbeatFrame) else none := by
  refine ⟨rfl, keep_alive_run_length hb openSends 0, ?_⟩
  simpa using keep_alive_run_getElem hb openSends 0 i

/-- C7: from a Disconnected socket (no handle recorded), `connect()` with an
open transport records the handle and sets `connected`; if establishment
raises or the handle does not report open, `connect()` fails with the
connection error and the socket stays Disconnected: `connected` is still false
and no handle is recorded. -/
theorem C7_connect_success_or_disconnected (s : Socket) (attempt : Option Transport)
    (hc : s.connected = false) (hw : s.ws_connection = none) :
    (∀ ws, attempt = some ws → ws.open_ = true →
        Socket.connect s attempt =
          ({ s with connected := true, ws_connection := some ws }, Except.ok ())) ∧
    ((attempt = none ∨ ∃ ws, attempt = some ws ∧ ws.open_ = false) →
        (∃ msg, (Socket.connect s attempt).2 = Except.error (PyErr.connectionError msg)) ∧
        (Socket.connect s attempt).1.connected = false ∧
        (Socket.connect s attempt).1.ws_connection = none) := by
  constructor
  · rintro ws rfl hopen
    simp [Socket.connect, Socket._connect, hopen]
  · rintro (rfl | ⟨ws, rfl, hopen⟩)
    · exact ⟨⟨"transport", rfl⟩, hc, hw⟩
    · refine ⟨⟨"Connection Failed", ?_⟩, ?_, ?_⟩ <;>
        simp [Socket.connect, Socket._connect, hopen, hc, hw]

/-- Witness for C7: a fresh socket and an open transport handle. -/
theorem C7_connect_success_or_disconnected_witness :
    (Socket.init "ws://u" [] 5).connected = false ∧
    (Socket.init "ws://u" [] 5).ws_connection = none ∧
    Socket.connect (Socket.init "ws://u" [] 5) (some { open_ := true }) =
      ({ Socket.init "ws://u" [] 5 with
          connected := true, ws_connection := some { open_ := true } },
        Except.ok ()) :=
  ⟨rfl, rfl,
    (C7_connect_success_or_disconnected (Socket.init "ws://u" [] 5)
        (some { open_ := true }) rfl rfl).1 _ rfl rfl⟩

/-- C9: a frame that fails to decode is not caught per-frame: the receive loop
dispatches the valid frames that arrived before it and then aborts with the
decode error, regardless of what frames follow — they are never received or
dispatched. -/
theorem C9_malformed_frame_aborts (channels : ChannelDict) (pre : List Message)
    (post : List RawFrame) :
    listen_run channels (pre.map RawFrame.valid ++ RawFrame.malformed :: post) =
      (pre.flatMap (fun m => (dispatch_one channels m).2), ListenEnd.malformedAbort) := by
  induction pre with
  | nil => rfl
  | cons m rest ih => simp [listen_run, ih]

/-- First component of a guarded call: the wrapper never writes the socket. -/
theorem guarded_call_fst (f : PyFunc) (s : Socket) : (guarded_call f s).1 = s := by
  unfold guarded_call
  split <;> rfl

/-- Each event preserves the correspondence between `connected` and a recorded
(not necessarily live) handle. -/
theorem step_preserves_handle_iff (s : Socket) (e : Event)
    (h : s.connected = s.ws_connection.isSome) :
    (step s e).connected = (step s e).ws_connection.isSome := by
  cases e with
  | connectOk => simp [step, Socket.connect, Socket._connect]
  | connectRaise => simpa [step, Socket.connect, Socket._connect] using h
  | connectNotOpen => simpa [step, Socket.connect, Socket._connect] using h
  | setChannelCall t => simpa [step, set_channel_call, guarded_call_fst] using h
  | listenCall => simpa [step, guarded_call_fst] using h
  | transportClose => simpa [step, Option.isSome_map] using h

/-- The correspondence holds in every state reached from a state satisfying it. -/
theorem run_events_handle_iff (es : List Event) :
    ∀ s : Socket, s.connected = s.ws_connection.isSome →
      (run_events s es).connected = (run_events s es).ws_connection.isSome := by
  induction es with
  | nil => intro s h; exact h
  | cons e es ih =>
      intro s h
      have h2 := step_preserves_handle_iff s e h
      simpa [run_events, List.foldl_cons] using ih (step s e) h2

/-- C8 counterexample: after a successful `connect()` followed by the transport
closing, the socket is a reachable state with `connected` still true while no
live transport handle is held — `_listen` and `_keep_alive` only break their
loops and never reset `connected` — so the invariant as claimed fails there. -/
theorem C8_counterexample_dead_handle :
    (run_events (Socket.init "ws://u" [] 5)
        [Event.connectOk, Event.transportClose]).connected = true ∧
    holds_live_transport
      (run_events (Socket.init "ws://u" [] 5)
        [Event.connectOk, Event.transportClose]) = false :=
  ⟨rfl, rfl⟩

/-- C8 amended: in every state reachable from `__init__` through the socket
operations, `connected == True` holds exactly when a transport handle has been
recorded — live or not. The live version of the invariant holds up to the
transport closing, but after closure `connected` remains true with a dead
handle. -/
theorem C8_amended_handle_recorded_iff (url : String) (params : Params) (hb : Nat)
    (es : List Event) :
    (run_events (Socket.init url params hb) es).connected =
      (run_events (Socket.init url params hb) es).ws_connection.isSome :=
  run_events_handle_iff es (Socket.init url params hb) rfl

end RealtimePy
